import Mathlib

/-!
Verification of the teleport source fragment: shallow embeddings of the
provision-token validation, the SSH server connection/channel admission
logic, the backend circular event buffer, prefix de-duplication, the audit
log rotation model, the database route-change check, and the client
credential bundle loading, together with proofs of the specification
claims about them.

Machine integers are modelled as Nat/Int (no overflow is reachable in the
embedded code paths), byte strings as List Nat, and fallible Go functions
as Except-valued Lean functions.  Go errors created through the trace
package are modelled by the TraceErr inductive, keeping the error class
(BadParameter / AccessDenied / NotFound / wrapped) and the formatted
message text.
-/

/-- Errors of the Go trace package, by class and formatted message. -/
inductive TraceErr where
  | badParameter (msg : String)
  | accessDenied (msg : String)
  | notFound (msg : String)
  | other (msg : String)
deriving DecidableEq, Repr

/-- Whether an Except computation succeeded (Go: err == nil). -/
def exceptOk {ε α : Type} : Except ε α → Bool
  | .ok _ => true
  | .error _ => false

/-- Whether a character list occurs contiguously inside another. -/
def infixOfChars (needle : List Char) : List Char → Bool
  | [] => needle.isEmpty
  | c :: rest => needle.isPrefixOf (c :: rest) || infixOfChars needle rest

/-- Whether one string occurs inside another (Go: strings.Contains),
decided on the underlying character lists. -/
def containsSubstring (hay needle : String) : Bool :=
  infixOfChars needle.toList hay.toList

namespace ProvisionToken

/-- TokenRule from the types package: constrains an AWS
account/role/ARN/region for the ec2 and iam join methods. -/
structure TokenRule where
  awsAccount : String
  awsRole : String
  awsARN : String
  awsRegions : List String
deriving DecidableEq, Repr

/-- Resource metadata, reduced to the fields the embedded code reads. -/
structure Metadata where
  name : String
deriving DecidableEq, Repr

/-- ProvisionTokenSpecV2: roles granted on join, join method, allow
rules, and the EC2 instance-identity-document TTL (nanoseconds). -/
structure ProvisionTokenSpecV2 where
  roles : List String
  joinMethod : String
  allow : List TokenRule
  awsIIDTTL : Int
deriving DecidableEq, Repr

/-- ProvisionTokenV2 resource. -/
structure ProvisionTokenV2 where
  kind : String
  version : String
  metadata : Metadata
  spec : ProvisionTokenSpecV2
deriving DecidableEq, Repr

def JoinMethodToken : String := "token"
def JoinMethodEC2 : String := "ec2"
def JoinMethodIAM : String := "iam"

/-- Five minutes in nanoseconds (Go: 5 * time.Minute). -/
def fiveMinutes : Int := 300000000000

/-- The per-rule loop of the ec2 arm of CheckAndSetDefaults: the first
offending rule produces the error, exactly as the Go for-loop returns. -/
def checkRulesEC2 : List TokenRule → Except TraceErr Unit
  | [] => .ok ()
  | r :: rest =>
    if r.awsARN ≠ "" then
      .error (.badParameter "the \"ec2\" join method does not support the \"aws_arn\" parameter")
    else if r.awsAccount = "" && r.awsRole = "" then
      .error (.badParameter "allow rule for \"ec2\" join method must set \"aws_account\" or \"aws_role\"")
    else
      checkRulesEC2 rest

/-- The per-rule loop of the iam arm of CheckAndSetDefaults.  Note: the
source passes JoinMethodEC2 into the last message's %q verb, so the
message names the ec2 method even though the branch is the iam one. -/
def checkRulesIAM : List TokenRule → Except TraceErr Unit
  | [] => .ok ()
  | r :: rest =>
    if r.awsRole ≠ "" then
      .error (.badParameter "the \"iam\" join method does not support the \"aws_role\" parameter")
    else if r.awsRegions.length ≠ 0 then
      .error (.badParameter "the \"iam\" join method does not support the \"aws_regions\" parameter")
    else if r.awsAccount = "" && r.awsARN = "" then
      .error (.badParameter "allow rule for \"ec2\" join method must set \"aws_account\" or \"aws_arn\"")
    else
      checkRulesIAM rest

/-- ProvisionTokenV2.CheckAndSetDefaults.  The metadata validation
(Metadata.CheckAndSetDefaults) and the system-role-set validation
(SystemRoles.Check) live outside the source fragment, so the embedding
is parametric in them: metadataCheck and rolesCheck stand for those two
subroutines. -/
def checkAndSetDefaults
    (metadataCheck : Metadata → Except TraceErr Metadata)
    (rolesCheck : List String → Except TraceErr Unit)
    (p : ProvisionTokenV2) : Except TraceErr ProvisionTokenV2 :=
  -- setStaticFields
  let p := { p with kind := "token", version := "v2" }
  match metadataCheck p.metadata with
  | .error e => .error e
  | .ok md =>
    let p := { p with metadata := md }
    if p.spec.roles.length = 0 then
      .error (.badParameter "provisioning token is missing roles")
    else
      match rolesCheck p.spec.roles with
      | .error e => .error e
      | .ok _ =>
        let hasAllowRules := p.spec.allow.length != 0
        let p :=
          if p.spec.joinMethod = "" then
            if hasAllowRules then
              { p with spec := { p.spec with joinMethod := JoinMethodEC2 } }
            else
              { p with spec := { p.spec with joinMethod := JoinMethodToken } }
          else p
        if p.spec.joinMethod = JoinMethodToken then
          if hasAllowRules then
            .error (.badParameter "allow rules are not compatible with the \"token\" join method")
          else
            .ok p
        else if p.spec.joinMethod = JoinMethodEC2 then
          if !hasAllowRules then
            .error (.badParameter "the \"ec2\" join method requires defined token allow rules")
          else
            match checkRulesEC2 p.spec.allow with
            | .error e => .error e
            | .ok _ =>
              .ok (if p.spec.awsIIDTTL = 0 then
                    { p with spec := { p.spec with awsIIDTTL := fiveMinutes } }
                  else p)
        else if p.spec.joinMethod = JoinMethodIAM then
          if !hasAllowRules then
            .error (.badParameter "the \"iam\" join method requires defined token allow rules")
          else
            match checkRulesIAM p.spec.allow with
            | .error e => .error e
            | .ok _ => .ok p
        else
          .error (.badParameter ("unknown join method \"" ++ p.spec.joinMethod ++ "\""))

end ProvisionToken

namespace ProvisionToken

/-- The join method CheckAndSetDefaults settles on: the explicit one, or
the backward-compatible default (ec2 with allow rules, token without). -/
def effectiveJoinMethod (p : ProvisionTokenV2) : String :=
  if p.spec.joinMethod = "" then
    if p.spec.allow.length != 0 then JoinMethodEC2 else JoinMethodToken
  else p.spec.joinMethod

/-- Success of the ec2 per-rule loop is equivalent to every rule setting
no ARN and setting an account or a role. -/
theorem checkRulesEC2_ok (rs : List TokenRule) :
    exceptOk (checkRulesEC2 rs) = true ↔
      ∀ r ∈ rs, r.awsARN = "" ∧ (r.awsAccount ≠ "" ∨ r.awsRole ≠ "") := by
  induction rs with
  | nil => simp [checkRulesEC2, exceptOk]
  | cons r rest ih =>
    by_cases harn : r.awsARN = "" <;>
    by_cases hacct : r.awsAccount = "" <;>
    by_cases hrole : r.awsRole = "" <;>
      simp [checkRulesEC2, harn, hacct, hrole, exceptOk, ih] <;> tauto

/-- Success of the iam per-rule loop is equivalent to every rule setting
no role, no regions, and an account or an ARN. -/
theorem checkRulesIAM_ok (rs : List TokenRule) :
    exceptOk (checkRulesIAM rs) = true ↔
      ∀ r ∈ rs, r.awsRole = "" ∧ r.awsRegions = [] ∧
        (r.awsAccount ≠ "" ∨ r.awsARN ≠ "") := by
  induction rs with
  | nil => simp [checkRulesIAM, exceptOk]
  | cons r rest ih =>
    by_cases hrole : r.awsRole = "" <;>
    by_cases hreg : r.awsRegions = [] <;>
    by_cases hacct : r.awsAccount = "" <;>
    by_cases harn : r.awsARN = "" <;>
      simp [checkRulesIAM, hrole, hreg, hacct, harn, exceptOk, ih,
        List.length_eq_zero] <;> tauto



/-- Claim C1: CheckAndSetDefaults succeeds exactly when at least one role
is set and all roles are valid, the join method (after defaulting an
unset method to ec2 when allow-rules are present and token otherwise)
satisfies its structural constraints: token forbids allow-rules, ec2 and
iam require at least one allow-rule, every ec2 rule sets account or role
and no ARN, every iam rule sets account or ARN and neither role nor
regions; and on success the resulting token carries the defaulted join
method, with an unset AWSIIDTTL defaulted to 5 minutes for ec2. -/
theorem claim_c1_checkAndSetDefaults
    (mc : Metadata → Except TraceErr Metadata)
    (rc : List String → Except TraceErr Unit)
    (p : ProvisionTokenV2)
    (hmc : ∃ m, mc p.metadata = .ok m) :
    (exceptOk (checkAndSetDefaults mc rc p) = true ↔
      (p.spec.roles ≠ [] ∧ exceptOk (rc p.spec.roles) = true ∧
        ((effectiveJoinMethod p = JoinMethodToken ∧ p.spec.allow = []) ∨
         (effectiveJoinMethod p = JoinMethodEC2 ∧ p.spec.allow ≠ [] ∧
           ∀ r ∈ p.spec.allow,
             r.awsARN = "" ∧ (r.awsAccount ≠ "" ∨ r.awsRole ≠ "")) ∨
         (effectiveJoinMethod p = JoinMethodIAM ∧ p.spec.allow ≠ [] ∧
           ∀ r ∈ p.spec.allow, r.awsRole = "" ∧ r.awsRegions = [] ∧
             (r.awsAccount ≠ "" ∨ r.awsARN ≠ ""))))) ∧
    (∀ q, checkAndSetDefaults mc rc p = .ok q →
      q.spec.joinMethod = effectiveJoinMethod p ∧
      (effectiveJoinMethod p = JoinMethodEC2 →
        q.spec.awsIIDTTL =
          if p.spec.awsIIDTTL = 0 then fiveMinutes else p.spec.awsIIDTTL) ∧
      (effectiveJoinMethod p ≠ JoinMethodEC2 →
        q.spec.awsIIDTTL = p.spec.awsIIDTTL)) := by
  obtain ⟨m, hm⟩ := hmc
  by_cases hroles : p.spec.roles = []
  · simp [checkAndSetDefaults, hm, hroles, exceptOk]
  · rcases hrc : rc p.spec.roles with e | u
    · simp [checkAndSetDefaults, hm, hroles, hrc, exceptOk,
        List.length_eq_zero]
    · by_cases hallow : p.spec.allow = []
      · by_cases hjm : p.spec.joinMethod = ""
        · simp [checkAndSetDefaults, effectiveJoinMethod, hm, hroles, hrc,
            hallow, hjm, exceptOk, List.length_eq_zero,
            JoinMethodToken, JoinMethodEC2, JoinMethodIAM]
        · by_cases htok : p.spec.joinMethod = "token"
          · simp [checkAndSetDefaults, effectiveJoinMethod, hm, hroles,
              hrc, hallow, hjm, htok, exceptOk, List.length_eq_zero,
              JoinMethodToken, JoinMethodEC2, JoinMethodIAM]
          · by_cases hec2 : p.spec.joinMethod = "ec2"
            · simp [checkAndSetDefaults, effectiveJoinMethod, hm, hroles,
                hrc, hallow, hjm, htok, hec2, exceptOk,
                List.length_eq_zero,
                JoinMethodToken, JoinMethodEC2, JoinMethodIAM]
            · by_cases hiam : p.spec.joinMethod = "iam"
              · simp [checkAndSetDefaults, effectiveJoinMethod, hm, hroles,
                  hrc, hallow, hjm, htok, hec2, hiam, exceptOk,
                  List.length_eq_zero,
                  JoinMethodToken, JoinMethodEC2, JoinMethodIAM]
              · simp [checkAndSetDefaults, effectiveJoinMethod, hm, hroles,
                  hrc, hallow, hjm, htok, hec2, hiam, exceptOk,
                  List.length_eq_zero,
                  JoinMethodToken, JoinMethodEC2, JoinMethodIAM]
      · by_cases hjm : p.spec.joinMethod = ""
        · rcases hrules : checkRulesEC2 p.spec.allow with e | u2
          · have hnall : ¬ ∀ r ∈ p.spec.allow,
                r.awsARN = "" ∧ (r.awsAccount ≠ "" ∨ r.awsRole ≠ "") := by
              intro hall
              have h := (checkRulesEC2_ok p.spec.allow).mpr hall
              rw [hrules] at h
              simp [exceptOk] at h
            simp [checkAndSetDefaults, effectiveJoinMethod, hm, hroles,
              hrc, hallow, hjm, hrules, hnall, exceptOk,
              List.length_eq_zero,
              JoinMethodToken, JoinMethodEC2, JoinMethodIAM]
          · have hall := (checkRulesEC2_ok p.spec.allow).mp
              (by rw [hrules]; rfl)
            by_cases httl : p.spec.awsIIDTTL = 0
            · simp [checkAndSetDefaults, effectiveJoinMethod, hm, hroles,
                hrc, hallow, hjm, hrules, hall, httl, exceptOk,
                List.length_eq_zero,
                JoinMethodToken, JoinMethodEC2, JoinMethodIAM]
              exact hall
            · simp [checkAndSetDefaults, effectiveJoinMethod, hm, hroles,
                hrc, hallow, hjm, hrules, hall, httl, exceptOk,
                List.length_eq_zero,
                JoinMethodToken, JoinMethodEC2, JoinMethodIAM]
              exact hall
        · by_cases htok : p.spec.joinMethod = "token"
          · simp [checkAndSetDefaults, effectiveJoinMethod, hm, hroles,
              hrc, hallow, hjm, htok, exceptOk, List.length_eq_zero,
              JoinMethodToken, JoinMethodEC2, JoinMethodIAM]
          · by_cases hec2 : p.spec.joinMethod = "ec2"
            · rcases hrules : checkRulesEC2 p.spec.allow with e | u2
              · have hnall : ¬ ∀ r ∈ p.spec.allow,
                    r.awsARN = "" ∧ (r.awsAccount ≠ "" ∨ r.awsRole ≠ "") := by
                  intro hall
                  have h := (checkRulesEC2_ok p.spec.allow).mpr hall
                  rw [hrules] at h
                  simp [exceptOk] at h
                simp [checkAndSetDefaults, effectiveJoinMethod, hm, hroles,
                  hrc, hallow, hjm, htok, hec2, hrules, hnall, exceptOk,
                  List.length_eq_zero,
                  JoinMethodToken, JoinMethodEC2, JoinMethodIAM]
              · have hall := (checkRulesEC2_ok p.spec.allow).mp
                  (by rw [hrules]; rfl)
                by_cases httl : p.spec.awsIIDTTL = 0
                · simp [checkAndSetDefaults, effectiveJoinMethod, hm,
                    hroles, hrc, hallow, hjm, htok, hec2, hrules, hall,
                    httl, exceptOk, List.length_eq_zero,
                    JoinMethodToken, JoinMethodEC2, JoinMethodIAM]
                  exact hall
                · simp [checkAndSetDefaults, effectiveJoinMethod, hm,
                    hroles, hrc, hallow, hjm, htok, hec2, hrules, hall,
                    httl, exceptOk, List.length_eq_zero,
                    JoinMethodToken, JoinMethodEC2, JoinMethodIAM]
                  exact hall
            · by_cases hiam : p.spec.joinMethod = "iam"
              · rcases hrules : checkRulesIAM p.spec.allow with e | u2
                · have hnall : ¬ ∀ r ∈ p.spec.allow,
                      r.awsRole = "" ∧ r.awsRegions = [] ∧
                        (r.awsAccount ≠ "" ∨ r.awsARN ≠ "") := by
                    intro hall
                    have h := (checkRulesIAM_ok p.spec.allow).mpr hall
                    rw [hrules] at h
                    simp [exceptOk] at h
                  simp [checkAndSetDefaults, effectiveJoinMethod, hm,
                    hroles, hrc, hallow, hjm, htok, hec2, hiam, hrules,
                    hnall, exceptOk, List.length_eq_zero,
                    JoinMethodToken, JoinMethodEC2, JoinMethodIAM]
                · have hall := (checkRulesIAM_ok p.spec.allow).mp
                    (by rw [hrules]; rfl)
                  simp [checkAndSetDefaults, effectiveJoinMethod, hm,
                    hroles, hrc, hallow, hjm, htok, hec2, hiam, hrules,
                    hall, exceptOk, List.length_eq_zero,
                    JoinMethodToken, JoinMethodEC2, JoinMethodIAM]
                  exact hall
              · simp [checkAndSetDefaults, effectiveJoinMethod, hm,
                  hroles, hrc, hallow, hjm, htok, hec2, hiam, exceptOk,
                  List.length_eq_zero,
                  JoinMethodToken, JoinMethodEC2, JoinMethodIAM]


/-- Identity metadata check: accepts every metadata value unchanged. -/
def mcId : Metadata → Except TraceErr Metadata := fun m => .ok m

/-- Role-set check that accepts every role list. -/
def rcOk : List String → Except TraceErr Unit := fun _ => .ok ()

/-- A minimal valid token (one role, no join method, no allow rules). -/
def sampleToken : ProvisionTokenV2 :=
  { kind := "", version := "", metadata := { name := "tok" },
    spec := { roles := ["Node"], joinMethod := "", allow := [], awsIIDTTL := 0 } }

/-- Witness for C1: the characterization instantiated at a concrete
token whose join method defaults to the token method. -/
theorem claim_c1_checkAndSetDefaults_witness :
    exceptOk (checkAndSetDefaults mcId rcOk sampleToken) = true :=
  ((claim_c1_checkAndSetDefaults mcId rcOk sampleToken
      ⟨{ name := "tok" }, rfl⟩).1).mpr (by decide)

/-- An allow rule setting neither aws_account nor aws_arn. -/
def iamRuleNoIdent : TokenRule :=
  { awsAccount := "", awsRole := "", awsARN := "", awsRegions := [] }

/-- An iam-method token whose single allow rule sets neither aws_account
nor aws_arn. -/
def iamTokenBad : ProvisionTokenV2 :=
  { kind := "", version := "", metadata := { name := "tok2" },
    spec := { roles := ["Node"], joinMethod := "iam",
              allow := [iamRuleNoIdent], awsIIDTTL := 0 } }

/-- Claim C2 (code bug): an iam-method token whose allow rule sets
neither aws_account nor aws_arn is rejected with a BadParameter message
that names the ec2 join method, not the iam one: the iam branch of
CheckAndSetDefaults passes JoinMethodEC2 into the message's %q verb. -/
theorem claim_c2_iam_message_names_ec2 :
    checkAndSetDefaults mcId rcOk iamTokenBad =
      .error (.badParameter
        "allow rule for \"ec2\" join method must set \"aws_account\" or \"aws_arn\"") ∧
    containsSubstring
      "allow rule for \"ec2\" join method must set \"aws_account\" or \"aws_arn\""
      "\"ec2\"" = true ∧
    containsSubstring
      "allow rule for \"ec2\" join method must set \"aws_account\" or \"aws_arn\""
      "iam" = false := by
  refine ⟨rfl, ?_, ?_⟩ <;> decide

end ProvisionToken

namespace SSHServer

/-- Audit event-type tag of a SessionReject event.  The literal value of
the events.SessionRejectedEvent constant is outside the source fragment;
it is used only as an identity tag here. -/
def SessionRejectedEvent : String := "session.rejected"

/-- Audit event code of a SessionReject event (events.SessionRejectedCode);
literal value outside the fragment, used only as an identity tag. -/
def SessionRejectedCode : String := "T1006W"

/-- Reason tag for a session rejected by the per-connection session
limit (events.SessionRejectedReasonMaxSessions); literal value outside
the fragment, used only as an identity tag. -/
def SessionRejectedReasonMaxSessions : String := "max sessions"

/-- The component name of the node role (teleport.ComponentNode). -/
def ComponentNode : String := "node"

/-- The fields of an apievents.SessionReject event that the embedded
code writes. -/
structure SessionRejectEvent where
  eventType : String
  code : String
  user : String
  reason : String
  maximum : Int
deriving DecidableEq, Repr

/-- Outcome of services.AcquireSemaphoreLock.  The Go code classifies a
failure by searching the error text for teleport.MaxLeases; the
classification is modelled as a three-way outcome. -/
inductive AcquireOutcome where
  | acquired
  | maxLeases (msg : String)
  | failed (msg : String)
deriving DecidableEq, Repr

/-- Everything Server.HandleNewConn reads from its collaborators:
identity-context creation, auth preference lookup, lock-target
computation, the lock check, the server's component/role, the identity's
connection limit, the networking-config lookup and the semaphore
acquisition. -/
structure ConnInput where
  identityErr : Option String
  teleportUser : String
  authPrefErr : Option String
  lockTargetsErr : Option String
  lockErr : Option String
  component : String
  maxConnections : Int
  netConfigErr : Option String
  acquire : AcquireOutcome
deriving Repr

/-- Observable outcome of Server.HandleNewConn: the returned error (if
any), the audit events emitted, whether the lock check ran, whether a
semaphore acquisition was attempted and whether a lease is held. -/
structure ConnOutput where
  result : Except TraceErr Unit
  emitted : List SessionRejectEvent
  lockChecked : Bool
  semAttempted : Bool
  leaseHeld : Bool
deriving Repr

/-- Server.HandleNewConn, node-relevant control flow: create the
identity context, fetch the auth preference, compute lock targets,
check locks (emitting a SessionReject on a lock failure), then - in the
node role only, and only when the identity's MaxConnections is nonzero -
acquire a cluster semaphore lease keyed by the user, emitting a
SessionReject carrying the maximum and returning AccessDenied when the
lease limit is hit. -/
def handleNewConn (inp : ConnInput) : ConnOutput :=
  match inp.identityErr with
  | some e =>
    { result := .error (.other e), emitted := [], lockChecked := false,
      semAttempted := false, leaseHeld := false }
  | none =>
    match inp.authPrefErr with
    | some e =>
      { result := .error (.other e), emitted := [], lockChecked := false,
        semAttempted := false, leaseHeld := false }
    | none =>
      let event : SessionRejectEvent :=
        { eventType := SessionRejectedEvent, code := SessionRejectedCode,
          user := inp.teleportUser, reason := "", maximum := 0 }
      match inp.lockTargetsErr with
      | some e =>
        { result := .error (.other e), emitted := [], lockChecked := false,
          semAttempted := false, leaseHeld := false }
      | none =>
        match inp.lockErr with
        | some lockMsg =>
          { result := .error (.other lockMsg),
            emitted := [{ event with reason := lockMsg }],
            lockChecked := true, semAttempted := false, leaseHeld := false }
        | none =>
          if inp.component ≠ ComponentNode then
            { result := .ok (), emitted := [], lockChecked := true,
              semAttempted := false, leaseHeld := false }
          else if inp.maxConnections = 0 then
            { result := .ok (), emitted := [], lockChecked := true,
              semAttempted := false, leaseHeld := false }
          else
            match inp.netConfigErr with
            | some e =>
              { result := .error (.other e), emitted := [],
                lockChecked := true, semAttempted := false,
                leaseHeld := false }
            | none =>
              match inp.acquire with
              | .acquired =>
                { result := .ok (), emitted := [], lockChecked := true,
                  semAttempted := true, leaseHeld := true }
              | .maxLeases _ =>
                { result := .error (.accessDenied
                    ("too many concurrent ssh connections for user \"" ++
                      inp.teleportUser ++ "\" (max=" ++
                      toString inp.maxConnections ++ ")")),
                  emitted :=
                    [{ event with
                        reason := SessionRejectedEvent,
                        maximum := inp.maxConnections }],
                  lockChecked := true, semAttempted := true,
                  leaseHeld := false }
              | .failed e =>
                { result := .error (.other e), emitted := [],
                  lockChecked := true, semAttempted := true,
                  leaseHeld := false }

/-- SSH channel rejection reasons used by the embedded code. -/
inductive RejectionReason where
  | prohibited
  | connectionFailed
  | unknownChannelType
deriving DecidableEq, Repr

/-- Decision HandleNewChan takes for a new channel. -/
inductive ChanDecision where
  | rejected (reason : RejectionReason) (msg : String)
  | acceptedTracing
  | acceptedSession
  | acceptedDirectTCPIP
  | acceptedProxyJump
deriving DecidableEq, Repr

/-- Everything Server.HandleNewChan reads: identity-context creation,
the server mode, the channel type, the identity's session limit and the
connection context's current session count, plus the parse/accept
outcomes of the SSH plumbing. -/
structure ChanInput where
  identityErr : Option String
  teleportUser : String
  proxyMode : Bool
  channelType : String
  maxSessions : Int
  currentSessions : Int
  parseTCPIPOk : Bool
  acceptOk : Bool
deriving Repr

/-- Observable outcome of Server.HandleNewChan. -/
structure ChanOutput where
  decision : ChanDecision
  emitted : List SessionRejectEvent
deriving Repr

/-- ConnectionContext.IncrSessions(max) succeeds exactly when the
current per-connection session count is below max. -/
def incrSessionsOk (current max : Int) : Bool := current < max

/-- Server.HandleNewChan: dispatch on channel type.  In proxy mode the
accepted types are tracing, direct-tcpip (proxy jump) and session; in
node mode the session channel first enforces the identity's
MaxSessions via the per-connection counter, emitting a SessionReject
with reason SessionRejectedReasonMaxSessions and the maximum, and
rejecting the channel, when the count is exceeded.  Unknown channel
types are rejected with UnknownChannelType. -/
def handleNewChan (inp : ChanInput) : ChanOutput :=
  match inp.identityErr with
  | some e =>
    { decision := .rejected .prohibited
        ("Unable to create identity from connection: " ++ e),
      emitted := [] }
  | none =>
    if inp.proxyMode then
      if inp.channelType = "tracing-request" then
        { decision := .acceptedTracing, emitted := [] }
      else if inp.channelType = "direct-tcpip" then
        if !inp.parseTCPIPOk then
          { decision := .rejected .unknownChannelType
              "failed to parse direct-tcpip request", emitted := [] }
        else if !inp.acceptOk then
          { decision := .rejected .connectionFailed
              "unable to accept channel", emitted := [] }
        else
          { decision := .acceptedProxyJump, emitted := [] }
      else if inp.channelType = "session" then
        if !inp.acceptOk then
          { decision := .rejected .connectionFailed
              "unable to accept channel", emitted := [] }
        else
          { decision := .acceptedSession, emitted := [] }
      else
        { decision := .rejected .unknownChannelType
            ("unknown channel type: " ++ inp.channelType), emitted := [] }
    else
      if inp.channelType = "tracing-request" then
        { decision := .acceptedTracing, emitted := [] }
      else if inp.channelType = "session" then
        if inp.maxSessions ≠ 0 &&
            !incrSessionsOk inp.currentSessions inp.maxSessions then
          { decision := .rejected .prohibited
              ("too many session channels for user \"" ++
                inp.teleportUser ++ "\" (max=" ++
                toString inp.maxSessions ++ ")"),
            emitted := [{ eventType := SessionRejectedEvent,
                          code := SessionRejectedCode,
                          user := inp.teleportUser,
                          reason := SessionRejectedReasonMaxSessions,
                          maximum := inp.maxSessions }] }
        else if !inp.acceptOk then
          { decision := .rejected .connectionFailed
              "unable to accept channel", emitted := [] }
        else
          { decision := .acceptedSession, emitted := [] }
      else if inp.channelType = "direct-tcpip" then
        if !inp.parseTCPIPOk then
          { decision := .rejected .unknownChannelType
              "failed to parse direct-tcpip request", emitted := [] }
        else if !inp.acceptOk then
          { decision := .rejected .connectionFailed
              "unable to accept channel", emitted := [] }
        else
          { decision := .acceptedDirectTCPIP, emitted := [] }
      else
        { decision := .rejected .unknownChannelType
            ("unknown channel type: " ++ inp.channelType), emitted := [] }

end SSHServer

namespace SSHServer

/-- Claim C3: in node role, a connection over the identity's maximum
concurrent connection count is rejected at HandleNewConn with an
access-denied error and a SessionReject audit event carrying Maximum
equal to the configured limit; a session channel beyond the identity's
maximum concurrent session count is rejected at HandleNewChan and a
SessionReject audit event with reason SessionRejectedReasonMaxSessions
and Maximum equal to the limit is emitted. -/
theorem claim_c3_concurrency_limits
    (cin : ConnInput) (hin : ChanInput)
    (h1 : cin.identityErr = none) (h2 : cin.authPrefErr = none)
    (h3 : cin.lockTargetsErr = none) (h4 : cin.lockErr = none)
    (h5 : cin.component = ComponentNode) (h6 : cin.maxConnections ≠ 0)
    (h7 : cin.netConfigErr = none) (m : String)
    (h8 : cin.acquire = .maxLeases m)
    (g1 : hin.identityErr = none) (g2 : hin.proxyMode = false)
    (g3 : hin.channelType = "session") (g4 : hin.maxSessions ≠ 0)
    (g5 : ¬(hin.currentSessions < hin.maxSessions)) :
    ((handleNewConn cin).result = .error (.accessDenied
        ("too many concurrent ssh connections for user \"" ++
          cin.teleportUser ++ "\" (max=" ++
          toString cin.maxConnections ++ ")")) ∧
      (handleNewConn cin).emitted =
        [{ eventType := SessionRejectedEvent, code := SessionRejectedCode,
           user := cin.teleportUser, reason := SessionRejectedEvent,
           maximum := cin.maxConnections }]) ∧
    ((handleNewChan hin).decision = .rejected .prohibited
        ("too many session channels for user \"" ++ hin.teleportUser ++
          "\" (max=" ++ toString hin.maxSessions ++ ")") ∧
      (handleNewChan hin).emitted =
        [{ eventType := SessionRejectedEvent, code := SessionRejectedCode,
           user := hin.teleportUser,
           reason := SessionRejectedReasonMaxSessions,
           maximum := hin.maxSessions }]) := by
  constructor
  · simp [handleNewConn, h1, h2, h3, h4, h5, h6, h7, h8, ComponentNode]
  · simp [handleNewChan, g1, g2, g3, g4, g5, incrSessionsOk]

/-- Connection input for the C3 witness: node role, limit 2, semaphore
acquisition failing with the max-leases marker. -/
def connOverLimit : ConnInput :=
  { identityErr := none, teleportUser := "alice", authPrefErr := none,
    lockTargetsErr := none, lockErr := none, component := "node",
    maxConnections := 2, netConfigErr := none,
    acquire := .maxLeases "err-max-leases" }

/-- Channel input for the C3 witness: node mode session channel with the
per-connection session count already at the limit 3. -/
def chanOverLimit : ChanInput :=
  { identityErr := none, teleportUser := "bob", proxyMode := false,
    channelType := "session", maxSessions := 3, currentSessions := 3,
    parseTCPIPOk := true, acceptOk := true }

/-- Witness for C3 at concrete over-limit inputs. -/
theorem claim_c3_concurrency_limits_witness :
    ((handleNewConn connOverLimit).result = .error (.accessDenied
        ("too many concurrent ssh connections for user \"" ++
          "alice" ++ "\" (max=" ++ toString (2 : Int) ++ ")")) ∧
      (handleNewConn connOverLimit).emitted =
        [{ eventType := SessionRejectedEvent, code := SessionRejectedCode,
           user := "alice", reason := SessionRejectedEvent,
           maximum := 2 }]) ∧
    ((handleNewChan chanOverLimit).decision = .rejected .prohibited
        ("too many session channels for user \"" ++ "bob" ++
          "\" (max=" ++ toString (3 : Int) ++ ")") ∧
      (handleNewChan chanOverLimit).emitted =
        [{ eventType := SessionRejectedEvent, code := SessionRejectedCode,
           user := "bob", reason := SessionRejectedReasonMaxSessions,
           maximum := 3 }]) :=
  claim_c3_concurrency_limits connOverLimit chanOverLimit
    rfl rfl rfl rfl rfl (by decide) rfl "err-max-leases" rfl
    rfl rfl rfl (by decide) (by decide)

/-- Claim C10: once the identity context, auth preference and lock
targets are available, HandleNewConn always performs the lock check;
and when the lock check passes and either the identity's computed
maximum concurrent connections is zero or the server's role is not
node, no semaphore acquisition is attempted, no lease is held, and the
connection is admitted. -/
theorem claim_c10_no_semaphore_outside_node
    (cin : ConnInput)
    (h1 : cin.identityErr = none) (h2 : cin.authPrefErr = none)
    (h3 : cin.lockTargetsErr = none) :
    (handleNewConn cin).lockChecked = true ∧
    (cin.lockErr = none →
      (cin.maxConnections = 0 ∨ cin.component ≠ ComponentNode) →
      (handleNewConn cin).result = .ok () ∧
      (handleNewConn cin).semAttempted = false ∧
      (handleNewConn cin).leaseHeld = false) := by
  rcases hl : cin.lockErr with _ | lockMsg
  · constructor
    · by_cases hc : cin.component = ComponentNode
      · by_cases hm : cin.maxConnections = 0
        · simp [handleNewConn, h1, h2, h3, hl, hc, hm]
        · rcases hn : cin.netConfigErr with _ | e
          · rcases ha : cin.acquire with _ | m | e <;>
              simp [handleNewConn, h1, h2, h3, hl, hc, hm, hn, ha]
          · simp [handleNewConn, h1, h2, h3, hl, hc, hm, hn]
      · simp [handleNewConn, h1, h2, h3, hl, hc]
    · intro _ hor
      rcases hor with hm | hc
      · by_cases hc : cin.component = ComponentNode <;>
          simp [handleNewConn, h1, h2, h3, hl, hm, hc]
      · simp [handleNewConn, h1, h2, h3, hl, hc]
  · simp [handleNewConn, h1, h2, h3, hl]

/-- Connection input for the C10 witness: proxy role with a nonzero
connection limit and a would-fail semaphore, which must never be
consulted. -/
def connProxyRole : ConnInput :=
  { identityErr := none, teleportUser := "carol", authPrefErr := none,
    lockTargetsErr := none, lockErr := none, component := "proxy",
    maxConnections := 5, netConfigErr := none,
    acquire := .maxLeases "err-max-leases" }

/-- Witness for C10 at a concrete proxy-role input. -/
theorem claim_c10_no_semaphore_outside_node_witness :
    (handleNewConn connProxyRole).lockChecked = true ∧
    (handleNewConn connProxyRole).result = .ok () ∧
    (handleNewConn connProxyRole).semAttempted = false ∧
    (handleNewConn connProxyRole).leaseHeld = false := by
  have h := claim_c10_no_semaphore_outside_node connProxyRole rfl rfl rfl
  exact ⟨h.1, h.2 rfl (Or.inr (by decide))⟩

end SSHServer

namespace Backend

/-- backend.Item: key/value bytes with a monotonic ID. -/
structure Item where
  key : List Nat
  value : List Nat
  id : Int
deriving DecidableEq, Repr

/-- backend.Event: an operation type wrapping an Item. -/
structure Event where
  opType : String
  item : Item
deriving DecidableEq, Repr

/-- Modelled from the spec: the fixed-capacity circular buffer of the
backend change-event bus (lib/backend's CircularBuffer, whose
implementation file is not part of the source set; only its test is).
It retains the most recent `capacity` emitted events in emission
order. -/
structure CircularBuffer where
  capacity : Nat
  events : List Event
deriving DecidableEq, Repr

/-- Modelled from the spec: NewCircularBuffer - the buffer starts
empty. -/
def newCircularBuffer (c : Nat) : CircularBuffer :=
  { capacity := c, events := [] }

/-- Modelled from the spec: Emit appends the event and evicts the
oldest events beyond the configured capacity. -/
def emit (b : CircularBuffer) (e : Event) : CircularBuffer :=
  let es := b.events ++ [e]
  { b with events := es.drop (es.length - b.capacity) }

/-- Modelled from the spec: Events() - a snapshot of the currently
retained events, in emission order. -/
def bufferEvents (b : CircularBuffer) : List Event := b.events

/-- Emitting never grows the buffer beyond its capacity. -/
theorem emit_length_le (b : CircularBuffer) (e : Event) :
    (emit b e).events.length ≤ b.capacity := by
  simp [emit]
  omega

/-- Folding a sequence of emissions into a buffer retains exactly the
suffix of the emitted sequence that fits the capacity. -/
theorem foldl_emit_events (xs : List Event) :
    ∀ b : CircularBuffer, b.events.length ≤ b.capacity →
      (xs.foldl emit b).events =
        (b.events ++ xs).drop (b.events.length + xs.length - b.capacity) := by
  induction xs with
  | nil =>
    intro b hb
    simp [Nat.sub_eq_zero_of_le hb]
  | cons x xs ih =>
    intro b hb
    have hstep : (emit b x).events.length ≤ (emit b x).capacity := by
      simp [emit]
      omega
    have hcap : (emit b x).capacity = b.capacity := rfl
    have h := ih (emit b x) hstep
    rw [List.foldl_cons, h, hcap]
    have hev : (emit b x).events =
        (b.events ++ [x]).drop ((b.events.length + 1) - b.capacity) := by
      simp [emit]
    have hlen : (emit b x).events.length =
        (b.events.length + 1) - ((b.events.length + 1) - b.capacity) := by
      rw [hev]
      simp
    have hd : (b.events.length + 1) - b.capacity ≤ (b.events ++ [x]).length := by
      simp
    rw [hlen, hev]
    rw [← List.drop_append_of_le_length hd, List.drop_drop]
    have hl : (b.events ++ [x]) ++ xs = b.events ++ x :: xs := by simp
    rw [hl]
    congr 1
    simp only [List.length_cons]
    omega

/-- Claim C4: for a circular buffer of capacity C in {1,2,3,4} and every
sequence of 100 emitted events, after the first i emissions (i ≤ 100)
the snapshot of current events equals exactly the last min(i, C)
emitted events in emission order, and the buffer starts empty. -/
theorem claim_c4_buffer_snapshot
    (C : Nat) (_hC : C = 1 ∨ C = 2 ∨ C = 3 ∨ C = 4)
    (es : List Event) (hlen : es.length = 100)
    (i : Nat) (hi : i ≤ 100) :
    bufferEvents (newCircularBuffer C) = [] ∧
    bufferEvents ((es.take i).foldl emit (newCircularBuffer C)) =
      (es.take i).drop (i - C) ∧
    ((es.take i).drop (i - C)).length = min i C := by
  have htake : (es.take i).length = i := by
    rw [List.length_take, hlen]
    omega
  have h := foldl_emit_events (es.take i) (newCircularBuffer C)
    (by simp [newCircularBuffer])
  refine ⟨rfl, ?_, ?_⟩
  · rw [bufferEvents, h]
    simp [newCircularBuffer, htake]
  · rw [List.length_drop, htake]
    omega

/-- A concrete event sequence of length 100 for the C4 witness. -/
def witnessEvents : List Event :=
  (List.range 100).map
    (fun n => { opType := "put", item := { key := [], value := [], id := n } })

/-- Witness for C4: capacity 2, first 5 of 100 concrete events; the
snapshot is the last 2 emitted events. -/
theorem claim_c4_buffer_snapshot_witness :
    bufferEvents (newCircularBuffer 2) = [] ∧
    bufferEvents ((witnessEvents.take 5).foldl emit (newCircularBuffer 2)) =
      (witnessEvents.take 5).drop 3 ∧
    ((witnessEvents.take 5).drop 3).length = min 5 2 :=
  claim_c4_buffer_snapshot 2 (by decide) witnessEvents (by decide) 5
    (by decide)

end Backend

namespace Backend

/-- Lexicographic byte-string ordering (Go: bytes.Compare == -1 or 0). -/
def bytesLe : List Nat → List Nat → Bool
  | [], _ => true
  | _ :: _, [] => false
  | a :: as, b :: bs =>
    if a < b then true
    else if b < a then false
    else bytesLe as bs

/-- Insert a byte string into a lexicographically sorted list. -/
def insertSortedBytes (x : List Nat) : List (List Nat) → List (List Nat)
  | [] => [x]
  | y :: ys => if bytesLe x y then x :: y :: ys else y :: insertSortedBytes x ys

/-- Sort byte strings lexicographically (insertion sort). -/
def sortBytes (l : List (List Nat)) : List (List Nat) :=
  l.foldr insertSortedBytes []

/-- Modelled from the spec: the kept-prefix scan over a sorted list -
drop every entry that has the most recently kept entry as a prefix. -/
def dropCoveredBy (last : List Nat) : List (List Nat) → List (List Nat)
  | [] => []
  | p :: rest =>
    if last.isPrefixOf p then dropCoveredBy last rest
    else p :: dropCoveredBy p rest

/-- Modelled from the spec: removeRedundantPrefixes (lib/backend; the
implementation file is not part of the source set, only its test is) -
sort the prefixes, then drop every prefix covered by a shorter prefix
already in the set, returning the remainder sorted. -/
def removeRedundantPrefixes (l : List (List Nat)) : List (List Nat) :=
  match sortBytes l with
  | [] => []
  | p :: rest => p :: dropCoveredBy p rest

/-- Claim C5: removeRedundantPrefixes on the four specified inputs -
it reduces {/a/b, /a, /a/b/c, /d} to {/a, /d}, {/a, /} to {/},
sorts {/b, /a} into {/a, /b} without removal, and maps the empty set
to itself.  Bytes: 47 is the slash, 97..100 are a..d. -/
theorem claim_c5_removeRedundantPrefixes :
    removeRedundantPrefixes [[47, 97, 47, 98], [47, 97],
        [47, 97, 47, 98, 47, 99], [47, 100]] = [[47, 97], [47, 100]] ∧
    removeRedundantPrefixes [[47, 97], [47]] = [[47]] ∧
    removeRedundantPrefixes [[47, 98], [47, 97]] = [[47, 97], [47, 98]] ∧
    removeRedundantPrefixes [] = [] := by
  refine ⟨?_, ?_, ?_, ?_⟩ <;> rfl

end Backend

namespace AuditLog

/-- An audit event, reduced to the fields the rotation and search logic
reads: the event type and the event time (seconds since the epoch,
UTC). -/
structure AuditEvent where
  eventType : String
  time : Nat
deriving DecidableEq, Repr

/-- One day-stamped local log file and the events written to it, in
emission order. -/
structure LogFile where
  day : Nat
  events : List AuditEvent
deriving DecidableEq, Repr

/-- Modelled from the spec: the local file-backed audit log
(lib/events' AuditLog, whose implementation file is not part of the
source set; only its test is).  files are the day-stamped files in
creation order, currentDay the day encoded in the currently open file,
symlinkDay the day-file the current-log symlink points at. -/
structure AuditLogState where
  files : List LogFile
  currentDay : Option Nat
  symlinkDay : Option Nat
deriving DecidableEq, Repr

def secondsPerDay : Nat := 86400

/-- The UTC calendar day an event time falls on. -/
def dayOf (t : Nat) : Nat := t / secondsPerDay

/-- A fresh audit log: no files, no open file, no symlink. -/
def emptyAuditLog : AuditLogState :=
  { files := [], currentDay := none, symlinkDay := none }

/-- Append an event to the file for the given day. -/
def appendToDay (d : Nat) (e : AuditEvent) : List LogFile → List LogFile
  | [] => [{ day := d, events := [e] }]
  | f :: rest =>
    if f.day = d then { f with events := f.events ++ [e] } :: rest
    else f :: appendToDay d e rest

/-- Modelled from the spec: EmitAuditEvent - write the event to the
file whose encoded date is the event time's UTC day, rotating to a new
file when the event's day differs from the currently open file's day
(rotation is event-driven, no clock is polled), then refresh the
current-log symlink to point at the file just written. -/
def emitAuditEvent (log : AuditLogState) (e : AuditEvent) : AuditLogState :=
  let d := dayOf e.time
  if log.currentDay = some d then
    { files := appendToDay d e log.files, currentDay := some d,
      symlinkDay := some d }
  else
    { files := log.files ++ [{ day := d, events := [e] }],
      currentDay := some d, symlinkDay := some d }

/-- The events of the file for a given day, if present. -/
def fileForDay (d : Nat) : List LogFile → Option (List AuditEvent)
  | [] => none
  | f :: rest => if f.day = d then some f.events else fileForDay d rest

/-- The contents read through the current-log symlink. -/
def symlinkContents (log : AuditLogState) : Option (List AuditEvent) :=
  match log.symlinkDay with
  | none => none
  | some d => fileForDay d log.files

/-- Modelled from the spec: SearchEvents over a closed time range -
merge the matching events across all rotated files. -/
def searchEvents (log : AuditLogState) (fromT toT : Nat) : List AuditEvent :=
  (log.files.foldl (fun acc f => acc ++ f.events) []).filter
    (fun e => Nat.ble fromT e.time && Nat.ble e.time toT)

/-- Claim C6: an event emitted at time T is written to the file whose
encoded date is T's UTC day; a second event 25 hours later crosses a
day boundary and rotates to a new file encoding the new day; after each
emission the current-log symlink resolves to the most recently written
file's contents, and a search over the hour surrounding each emission
returns exactly that one event. -/
theorem claim_c6_log_rotation (T : Nat) :
    let e1 : AuditEvent := { eventType := "resize", time := T }
    let log1 := emitAuditEvent emptyAuditLog e1
    let e2 : AuditEvent := { eventType := "resize", time := T + 90000 }
    let log2 := emitAuditEvent log1 e2
    log1.files = [{ day := dayOf T, events := [e1] }] ∧
    log1.symlinkDay = some (dayOf T) ∧
    symlinkContents log1 = some [e1] ∧
    searchEvents log1 (T - 3600) (T + 3600) = [e1] ∧
    dayOf (T + 90000) ≠ dayOf T ∧
    log2.files = [{ day := dayOf T, events := [e1] },
                  { day := dayOf (T + 90000), events := [e2] }] ∧
    log2.symlinkDay = some (dayOf (T + 90000)) ∧
    symlinkContents log2 = some [e2] ∧
    searchEvents log2 (T + 90000 - 3600) (T + 90000 + 3600) = [e2] := by
  intro e1 log1 e2 log2
  have hday : dayOf (T + 90000) ≠ dayOf T := by
    simp only [dayOf, secondsPerDay]
    omega
  have hlog1 : log1 =
      ⟨[⟨dayOf T, [e1]⟩], some (dayOf T), some (dayOf T)⟩ := by
    simp [log1, emitAuditEvent, emptyAuditLog]
  have hlog2 : log2 =
      ⟨[⟨dayOf T, [e1]⟩, ⟨dayOf (T + 90000), [e2]⟩],
        some (dayOf (T + 90000)), some (dayOf (T + 90000))⟩ := by
    have hne : ¬ ((some (dayOf T) : Option Nat) = some (dayOf (T + 90000))) := by
      simp only [Option.some_inj]
      exact fun h => hday h.symm
    simp [log2, emitAuditEvent, hlog1, hne]
  refine ⟨?_, ?_, ?_, ?_, hday, ?_, ?_, ?_, ?_⟩
  · rw [hlog1]
  · rw [hlog1]
  · rw [hlog1]
    simp [symlinkContents, fileForDay]
  · rw [hlog1]
    simp only [searchEvents, List.foldl]
    have h1 : Nat.ble (T - 3600) T = true := by
      rw [Nat.ble_eq]
      omega
    have h2 : Nat.ble T (T + 3600) = true := by
      rw [Nat.ble_eq]
      omega
    simp [e1, h1, h2]
  · rw [hlog2]
  · rw [hlog2]
  · rw [hlog2]
    simp [symlinkContents, fileForDay]
    intro h
    exact absurd h.symm hday
  · rw [hlog2]
    simp only [searchEvents, List.foldl]
    have h1 : Nat.ble (T + 90000 - 3600) T = false := by
      rw [← Bool.not_eq_true, Nat.ble_eq]
      omega
    have h2 : Nat.ble (T + 90000 - 3600) (T + 90000) = true := by
      rw [Nat.ble_eq]
      omega
    have h3 : Nat.ble (T + 90000) (T + 90000 + 3600) = true := by
      rw [Nat.ble_eq]
      omega
    simp [e1, e2, h1, h2, h3]

end AuditLog

/-- A list is an infix of any list that starts with it. -/
theorem infixOfChars_self_append (needle tail : List Char) :
    infixOfChars needle (needle ++ tail) = true := by
  cases needle with
  | nil =>
    induction tail with
    | nil => rfl
    | cons c rest ih => simp [infixOfChars, List.isPrefixOf]
  | cons a as =>
    simp only [List.cons_append, infixOfChars]
    have : (a :: as).isPrefixOf (a :: (as ++ tail)) = true := by
      rw [← List.cons_append]
      exact List.isPrefixOf_iff_prefix.mpr (List.prefix_append _ _)
    simp [this]

/-- A list is an infix of any sandwich around it. -/
theorem infixOfChars_sandwich (needle pre post : List Char) :
    infixOfChars needle (pre ++ (needle ++ post)) = true := by
  induction pre with
  | nil => simpa using infixOfChars_self_append needle post
  | cons c pre ih => simp [infixOfChars, ih]

/-- A string always contains a substring it was assembled around. -/
theorem containsSubstring_sandwich (pre needle post : String) :
    containsSubstring (pre ++ needle ++ post) needle = true := by
  have h : (pre ++ needle ++ post).toList =
      pre.toList ++ (needle.toList ++ post.toList) := by
    simp [String.toList, String.data_append]
  rw [containsSubstring, h]
  exact infixOfChars_sandwich _ _ _

namespace DBRoute

/-- tlsca.RouteToDatabase: the database route encoded in a database
certificate. -/
structure RouteToDatabase where
  serviceName : String
  protocol : String
  username : String
  database : String
deriving DecidableEq, Repr

/-- Modelled from the spec: whether database-name selection is
meaningful for a protocol, i.e. the name is part of the connection
handshake.  Postgres-like protocols (and MongoDB, per the
TestDBInfoHasChanged vectors) carry the database name; MySQL does
not. -/
def isDatabaseNameMeaningful : String → Bool
  | "mysql" => false
  | _ => true

/-- Modelled from the spec: dbInfoHasChanged (tsh's database
route-change check, whose implementation file is not part of the
source set; only its test is).  Blank requested values never force
re-negotiation; a non-blank requested user differing from the routed
user always does; a non-blank requested database name differing from
the routed name does so only for protocols where the name is
meaningful. -/
def dbInfoHasChanged (requestedUser requestedName : String)
    (route : RouteToDatabase) : Bool :=
  if requestedUser = "" ∧ requestedName = "" then false
  else if requestedUser ≠ "" ∧ requestedUser ≠ route.username then true
  else if requestedName ≠ "" ∧ requestedName ≠ route.database ∧
      isDatabaseNameMeaningful route.protocol then true
  else false

/-- Claim C7: a non-blank requested user differing from the routed user
forces re-negotiation regardless of protocol; blank requested user and
name never force it; a non-blank differing requested name forces it
exactly for protocols where name selection is meaningful - true for
Postgres, false for MySQL. -/
theorem claim_c7_dbInfoHasChanged :
    (∀ (u n : String) (r : RouteToDatabase),
      u ≠ "" → u ≠ r.username → dbInfoHasChanged u n r = true) ∧
    (∀ r : RouteToDatabase, dbInfoHasChanged "" "" r = false) ∧
    (∀ (n : String) (r : RouteToDatabase),
      n ≠ "" → n ≠ r.database →
      dbInfoHasChanged "" n r = isDatabaseNameMeaningful r.protocol) ∧
    isDatabaseNameMeaningful "postgres" = true ∧
    isDatabaseNameMeaningful "mysql" = false := by
  refine ⟨?_, ?_, ?_, rfl, rfl⟩
  · intro u n r hu hun
    simp [dbInfoHasChanged, hu, hun]
  · intro r
    simp [dbInfoHasChanged]
  · intro n r hn hnd
    rcases hm : isDatabaseNameMeaningful r.protocol with _ | _ <;>
      simp [dbInfoHasChanged, hn, hnd, hm]

/-- Witness for C7 at concrete routes: same requested user notices a
changed user under MySQL; a differing name re-negotiates under Postgres
but not under MySQL. -/
theorem claim_c7_dbInfoHasChanged_witness :
    dbInfoHasChanged "alice" "" ⟨"svc", "mysql", "bob", "d1"⟩ = true ∧
    dbInfoHasChanged "" "" ⟨"svc", "mysql", "bob", "d1"⟩ = false ∧
    dbInfoHasChanged "" "d2" ⟨"svc", "postgres", "bob", "d1"⟩ = true ∧
    dbInfoHasChanged "" "d2" ⟨"svc", "mysql", "bob", "d1"⟩ = false := by
  have h := claim_c7_dbInfoHasChanged
  refine ⟨h.1 "alice" "" ⟨"svc", "mysql", "bob", "d1"⟩ (by decide) (by decide),
    h.2.1 ⟨"svc", "mysql", "bob", "d1"⟩, ?_, ?_⟩
  · rw [h.2.2.1 "d2" ⟨"svc", "postgres", "bob", "d1"⟩ (by decide) (by decide)]
    rfl
  · rw [h.2.2.1 "d2" ⟨"svc", "mysql", "bob", "d1"⟩ (by decide) (by decide)]
    rfl

end DBRoute

namespace ClientKey

/-- A trusted CA certificate set (lib/auth/server.TrustedCerts). -/
structure TrustedCerts where
  tlsCertificates : List (List Nat)
  hostCertificates : List (List Nat)
deriving DecidableEq, Repr

/-- The client Key (credential bundle), reduced to the fields the
embedded operations read.  cert is the SSH certificate bytes; none
models a nil Go slice. -/
structure Key where
  priv : List Nat
  pub : List Nat
  cert : Option (List Nat)
  tlsCert : List Nat
  trustedCA : List TrustedCerts
deriving DecidableEq, Repr

/-- The contents of a parsed identity file (api/client.IdentityFile). -/
structure IdentityFile where
  privateKey : List Nat
  certsSSH : Option (List Nat)
  certsTLS : List Nat
  caCertsTLS : List (List Nat)
  caCertsSSH : List (List Nat)
deriving DecidableEq, Repr

/-- The external crypto/parsing routines KeyFromIdentityFile calls,
abstracted as oracles: ssh.ParseRawPrivateKey, the public key of
ssh.NewSignerFromKey, tls.X509KeyPair, x509 CertPool.AppendCertsFromPEM
and ssh.ParseKnownHosts. -/
structure CryptoOps where
  parseRawPrivateKey : List Nat → Except String Unit
  signerPub : List Nat → Except String (List Nat)
  x509KeyPair : List Nat → List Nat → Except String Unit
  appendCertsFromPEM : List Nat → Bool
  parseKnownHosts : List Nat → Except String Unit

/-- The fixed guidance appended to a CA parse error. -/
def caGuidance : String :=
  "; make sure this identity file was generated by 'tsh login -o' or 'tctl auth sign --format=file' or try generating it again"

/-- The message of a CA parse failure: built from the underlying error
and fixed guidance only - the file path is not interpolated. -/
def caParseErrMsg (e : String) : String :=
  "CA cert parsing error: " ++ e ++ caGuidance

/-- The TLS-CA loop of KeyFromIdentityFile: pool.AppendCertsFromPEM on
each CA cert, failing with a 1-based index on the first bad one. -/
def checkTLSCAs (ops : CryptoOps) : Nat → List (List Nat) → Except TraceErr Unit
  | _, [] => .ok ()
  | i, c :: rest =>
    if ops.appendCertsFromPEM c then checkTLSCAs ops (i + 1) rest
    else .error (.badParameter
      ("identity file contains invalid TLS CA cert (#" ++ toString (i + 1) ++ ")"))

/-- The SSH-CA loop of KeyFromIdentityFile: ssh.ParseKnownHosts on each
CA cert, failing on the first unparsable line. -/
def checkSSHCAs (ops : CryptoOps) : List (List Nat) → Except TraceErr Unit
  | [] => .ok ()
  | c :: rest =>
    match ops.parseKnownHosts c with
    | .error e => .error (.badParameter (caParseErrMsg e))
    | .ok _ => checkSSHCAs ops rest

/-- KeyFromIdentityFile: parse the identity file, validate the private
key (BadParameter naming the path on failure), validate the TLS
cert/key pair when a TLS cert is present (plain wrapped error on
failure), then validate the CA bundles (BadParameter without the path
on failure), returning the populated Key. -/
def keyFromIdentityFile (ops : CryptoOps) (path : String)
    (readResult : Except String IdentityFile) : Except TraceErr Key :=
  match readResult with
  | .error e => .error (.other ("failed to parse identity file: " ++ e))
  | .ok ident =>
    match ops.parseRawPrivateKey ident.privateKey with
    | .error e =>
      .error (.badParameter ("invalid identity: " ++ path ++ ". " ++ e))
    | .ok _ =>
      match ops.signerPub ident.privateKey with
      | .error e => .error (.other e)
      | .ok pub =>
        let tlsCheck : Except TraceErr Unit :=
          if ident.certsTLS.length > 0 then
            match ops.x509KeyPair ident.certsTLS ident.privateKey with
            | .error e => .error (.other e)
            | .ok _ => .ok ()
          else .ok ()
        match tlsCheck with
        | .error e => .error e
        | .ok _ =>
          if ident.caCertsTLS.length > 0 ∨ ident.caCertsSSH.length > 0 then
            match checkTLSCAs ops 0 ident.caCertsTLS with
            | .error e => .error e
            | .ok _ =>
              match checkSSHCAs ops ident.caCertsSSH with
              | .error e => .error e
              | .ok _ =>
                .ok { priv := ident.privateKey, pub := pub,
                      cert := ident.certsSSH, tlsCert := ident.certsTLS,
                      trustedCA := [{ tlsCertificates := ident.caCertsTLS,
                                      hostCertificates := ident.caCertsSSH }] }
          else
            .ok { priv := ident.privateKey, pub := pub,
                  cert := ident.certsSSH, tlsCert := ident.certsTLS,
                  trustedCA := [] }

end ClientKey

namespace ClientKey

/-- Crypto oracles for the C8 counterexample: everything parses except
ssh.ParseKnownHosts, which fails with "boom". -/
def opsBadCA : CryptoOps :=
  { parseRawPrivateKey := fun _ => .ok (), signerPub := fun _ => .ok [1],
    x509KeyPair := fun _ _ => .ok (), appendCertsFromPEM := fun _ => true,
    parseKnownHosts := fun _ => .error "boom" }

/-- Identity file with one SSH CA line and nothing else optional. -/
def identBadCA : IdentityFile :=
  { privateKey := [9], certsSSH := none, certsTLS := [],
    caCertsTLS := [], caCertsSSH := [[2]] }

/-- Crypto oracles for the C8 counterexample: tls.X509KeyPair reports a
certificate/private-key mismatch. -/
def opsBadTLS : CryptoOps :=
  { parseRawPrivateKey := fun _ => .ok (), signerPub := fun _ => .ok [1],
    x509KeyPair := fun _ _ =>
      .error "tls: private key does not match public key",
    appendCertsFromPEM := fun _ => true,
    parseKnownHosts := fun _ => .ok () }

/-- Identity file carrying a TLS certificate. -/
def identBadTLS : IdentityFile :=
  { privateKey := [9], certsSSH := none, certsTLS := [3],
    caCertsTLS := [], caCertsSSH := [] }

/-- Counterexample for claim C8 as stated: at the identity file path
/home/u/identity, an unparsable CA line yields an InvalidInput error
whose message does not contain the path, and a TLS cert/key mismatch
yields a plain wrapped error, not an InvalidInput one. -/
theorem claim_c8_counterexample :
    keyFromIdentityFile opsBadCA "/home/u/identity" (.ok identBadCA) =
      .error (.badParameter (caParseErrMsg "boom")) ∧
    containsSubstring (caParseErrMsg "boom") "/home/u/identity" = false ∧
    keyFromIdentityFile opsBadTLS "/home/u/identity" (.ok identBadTLS) =
      .error (.other "tls: private key does not match public key") := by
  refine ⟨rfl, ?_, rfl⟩
  decide

/-- Claim C8 as amended: a malformed private key is rejected with
InvalidInput whose message names the identity file path; a TLS
certificate/private-key mismatch is rejected with a plain wrapped
error carrying the underlying mismatch error (not InvalidInput and
without the path); an unparsable CA line is rejected with InvalidInput
whose message is built from the CA parse error and fixed guidance text
only (the path is not interpolated). -/
theorem claim_c8_amended_error_reporting
    (ops : CryptoOps) (path : String) (ident : IdentityFile) :
    (∀ e, ops.parseRawPrivateKey ident.privateKey = .error e →
      keyFromIdentityFile ops path (.ok ident) =
        .error (.badParameter ("invalid identity: " ++ path ++ ". " ++ e)) ∧
      containsSubstring ("invalid identity: " ++ path ++ ". " ++ e) path
        = true) ∧
    (∀ e u pub, ops.parseRawPrivateKey ident.privateKey = .ok u →
      ops.signerPub ident.privateKey = .ok pub →
      ident.certsTLS.length > 0 →
      ops.x509KeyPair ident.certsTLS ident.privateKey = .error e →
      keyFromIdentityFile ops path (.ok ident) = .error (.other e)) ∧
    (∀ e u pub c rest, ops.parseRawPrivateKey ident.privateKey = .ok u →
      ops.signerPub ident.privateKey = .ok pub →
      ident.certsTLS = [] →
      ident.caCertsTLS = [] →
      ident.caCertsSSH = c :: rest →
      ops.parseKnownHosts c = .error e →
      keyFromIdentityFile ops path (.ok ident) =
        .error (.badParameter (caParseErrMsg e))) := by
  refine ⟨?_, ?_, ?_⟩
  · intro e he
    refine ⟨by simp [keyFromIdentityFile, he], ?_⟩
    have h := containsSubstring_sandwich "invalid identity: " path (". " ++ e)
    rw [String.append_assoc, String.append_assoc]
    exact h
  · intro e u pub hp hs hlen hx
    simp [keyFromIdentityFile, hp, hs, hlen, hx]
  · intro e u pub c rest hp hs htls hca1 hca2 hkh
    simp [keyFromIdentityFile, hp, hs, htls, hca1, hca2, hkh,
      checkTLSCAs, checkSSHCAs]

/-- Crypto oracles whose private-key parse fails. -/
def opsBadKey : CryptoOps :=
  { parseRawPrivateKey := fun _ => .error "bad key",
    signerPub := fun _ => .ok [1], x509KeyPair := fun _ _ => .ok (),
    appendCertsFromPEM := fun _ => true, parseKnownHosts := fun _ => .ok () }

/-- An identity file with nothing optional present. -/
def identPlain : IdentityFile :=
  { privateKey := [9], certsSSH := none, certsTLS := [],
    caCertsTLS := [], caCertsSSH := [] }

/-- Witness for the amended C8, instantiating each of the three error
paths at a concrete identity file. -/
theorem claim_c8_amended_error_reporting_witness :
    (keyFromIdentityFile opsBadKey "/p" (.ok identPlain) =
        .error (.badParameter
          ("invalid identity: " ++ "/p" ++ ". " ++ "bad key")) ∧
      containsSubstring ("invalid identity: " ++ "/p" ++ ". " ++ "bad key")
        "/p" = true) ∧
    keyFromIdentityFile opsBadTLS "/home/u/identity" (.ok identBadTLS) =
      .error (.other "tls: private key does not match public key") ∧
    keyFromIdentityFile opsBadCA "/home/u/identity" (.ok identBadCA) =
      .error (.badParameter (caParseErrMsg "boom")) :=
  ⟨(claim_c8_amended_error_reporting opsBadKey "/p" identPlain).1
      "bad key" rfl,
   (claim_c8_amended_error_reporting opsBadTLS "/home/u/identity"
      identBadTLS).2.1 "tls: private key does not match public key" () [1]
      rfl rfl (by decide) rfl,
   (claim_c8_amended_error_reporting opsBadCA "/home/u/identity"
      identBadCA).2.2 "boom" () [1] [2] [] rfl rfl rfl rfl rfl rfl⟩

end ClientKey

namespace ClientKey

/-- A parsed SSH certificate, reduced to the field the embedded
operations read. -/
structure SSHCert where
  validPrincipals : List String
deriving DecidableEq, Repr

/-- The outcome of running a Go function that may also panic. -/
inductive GoOutcome (α : Type) where
  | ok (a : α)
  | err (e : TraceErr)
  | panicked (msg : String)
deriving DecidableEq, Repr

/-- The Go runtime message for indexing an empty slice at 0. -/
def indexOutOfRange : String := "index out of range [0] with length 0"

/-- Key.SSHCert: NotFound when no certificate bytes are stored, else
parse them (sshutils.ParseCertificate abstracted as an oracle). -/
def sshCertOf (parseCert : List Nat → Except String SSHCert)
    (k : Key) : Except TraceErr SSHCert :=
  match k.cert with
  | none => .error (.notFound "SSH cert not available")
  | some bys =>
    match parseCert bys with
    | .error e => .error (.other e)
    | .ok c => .ok c

/-- Key.CheckCert: parse the SSH certificate and run the certificate
checker on cert.ValidPrincipals[0] - the unguarded Go slice index
panics when the principal list is empty. -/
def checkCert (parseCert : List Nat → Except String SSHCert)
    (checker : String → SSHCert → Except String Unit)
    (k : Key) : GoOutcome Unit :=
  match sshCertOf parseCert k with
  | .error e => .err e
  | .ok cert =>
    match cert.validPrincipals with
    | [] => .panicked indexOutOfRange
    | p :: _ =>
      match checker p cert with
      | .error e => .err (.other e)
      | .ok _ => .ok ()

/-- ProxyClientSSHConfig: build the client SSH config (external
sshutils.SSHClientConfig abstracted as an outcome), read the
certificate's principals, and set the user to principals[0] - again an
unguarded index.  Returns the selected user on success. -/
def proxyClientSSHConfig (parseCert : List Nat → Except String SSHCert)
    (clientCfg : Except String Unit) (k : Key) : GoOutcome String :=
  match clientCfg with
  | .error e => .err (.other e)
  | .ok _ =>
    match sshCertOf parseCert k with
    | .error e => .err e
    | .ok cert =>
      match cert.validPrincipals with
      | [] => .panicked indexOutOfRange
      | p :: _ => .ok p

/-- Claim C9: for a Key whose stored SSH certificate parses to a
certificate with an empty ValidPrincipals list, Key.CheckCert and
ProxyClientSSHConfig panic with an index-out-of-range instead of
returning an error; when the certificate carries at least one
principal, neither operation can panic. -/
theorem claim_c9_principal_index_panic
    (parseCert : List Nat → Except String SSHCert)
    (checker : String → SSHCert → Except String Unit)
    (clientCfg : Except String Unit)
    (k : Key) (cert : SSHCert) (bys : List Nat)
    (hc : k.cert = some bys) (hp : parseCert bys = .ok cert) :
    (cert.validPrincipals = [] →
      checkCert parseCert checker k = .panicked indexOutOfRange ∧
      proxyClientSSHConfig parseCert (.ok ()) k =
        .panicked indexOutOfRange) ∧
    (cert.validPrincipals ≠ [] →
      (∀ m, checkCert parseCert checker k ≠ .panicked m) ∧
      (∀ m, proxyClientSSHConfig parseCert clientCfg k ≠ .panicked m)) := by
  have hcert : sshCertOf parseCert k = .ok cert := by
    simp [sshCertOf, hc, hp]
  constructor
  · intro hnil
    constructor
    · simp [checkCert, hcert, hnil]
    · simp [proxyClientSSHConfig, hcert, hnil]
  · intro hne
    rcases hps : cert.validPrincipals with _ | ⟨p, rest⟩
    · exact absurd hps hne
    · constructor
      · intro m
        rcases hch : checker p cert with e | u <;>
          simp [checkCert, hcert, hps, hch]
      · intro m
        rcases clientCfg with e | u <;>
          simp [proxyClientSSHConfig, hcert, hps]

/-- A key holding certificate bytes that parse to no principals. -/
def keyNoPrincipals : Key :=
  { priv := [9], pub := [1], cert := some [7], tlsCert := [],
    trustedCA := [] }

/-- Parse oracle returning the fixed certificate for the witness. -/
def parseCertFixed (principals : List String) :
    List Nat → Except String SSHCert :=
  fun _ => .ok { validPrincipals := principals }

/-- Witness for C9: a certificate with no principals panics both
operations; one with a principal panics neither. -/
theorem claim_c9_principal_index_panic_witness :
    (checkCert (parseCertFixed []) (fun _ _ => .ok ()) keyNoPrincipals =
        .panicked indexOutOfRange ∧
      proxyClientSSHConfig (parseCertFixed []) (.ok ()) keyNoPrincipals =
        .panicked indexOutOfRange) ∧
    (∀ m, checkCert (parseCertFixed ["root"]) (fun _ _ => .ok ())
        keyNoPrincipals ≠ .panicked m) ∧
    (∀ m, proxyClientSSHConfig (parseCertFixed ["root"]) (.ok ())
        keyNoPrincipals ≠ .panicked m) :=
  ⟨(claim_c9_principal_index_panic (parseCertFixed [])
      (fun _ _ => .ok ()) (.ok ()) keyNoPrincipals
      { validPrincipals := [] } [7] rfl rfl).1 rfl,
   (claim_c9_principal_index_panic (parseCertFixed ["root"])
      (fun _ _ => .ok ()) (.ok ()) keyNoPrincipals
      { validPrincipals := ["root"] } [7] rfl rfl).2 (by decide)⟩

end ClientKey
